import Mathlib

/-!
Verification of the inventory-tracking and alerting core of the jewelry-vision
repository (`jewelry_integration_module.py`, class `JewelryIntegrationModule`).

The Python module keeps a dictionary `inventory` mapping item-id strings to
item dictionaries, a `baseline_inventory` snapshot, and a bounded list of
alerts.  We embed the module shallowly:

* Python dicts (which preserve insertion order) become association lists
  `List (String × Item)`;
* ISO timestamp strings become `Nat` clock values passed explicitly;
* floats (confidences, the `0.8` threshold) become `ℚ`;
* the Euclidean-distance comparison `sqrt(dx^2+dy^2) <= tol` becomes the
  equivalent exact comparison `dx^2 + dy^2 <= tol^2`.
-/

/-- Bounding box in pixel coordinates, as in the detection dict. -/
structure BBox where
  x1 : Int
  y1 : Int
  x2 : Int
  y2 : Int
deriving DecidableEq, Repr

/-- `status` field of a tracked item: the source stores the strings
"present" and "missing". -/
inductive Status where
  | present
  | missing
deriving DecidableEq, Repr

/-- The `jewelry_classes` dict of the module (class-id → class name). -/
def jewelryClasses : Nat → Option String
  | 0 => some "person"
  | 24 => some "handbag"
  | 26 => some "backpack"
  | 28 => some "suitcase"
  | 80 => some "ring"
  | 81 => some "necklace"
  | 82 => some "bracelet"
  | 83 => some "earrings"
  | 84 => some "watch"
  | 85 => some "brooch"
  | 86 => some "chain"
  | 87 => some "pendant"
  | _ => none

/-- `_get_class_name`: dictionary lookup with an "unknown_<id>" fallback. -/
def getClassName (classId : Nat) : String :=
  (jewelryClasses classId).getD ("unknown_" ++ toString classId)

/-- `_is_jewelry_class`: class ids 80–87. -/
def isJewelryClass (classId : Nat) : Bool :=
  classId ∈ [80, 81, 82, 83, 84, 85, 86, 87]

/-- `_is_security_relevant`: class ids 0, 24, 26, 28. -/
def isSecurityRelevant (classId : Nat) : Bool :=
  classId ∈ [0, 24, 26, 28]

/-- A per-frame detection as built in `enhanced_detection` (the fields the
tracking core reads).  `class`, `is_jewelry` and `security_relevant` are
derived from `class_id` exactly as in the source. -/
structure Detection where
  class_id : Nat
  confidence : ℚ
  bbox : BBox
  center : Int × Int
deriving DecidableEq, Repr

/-- The detection's `class` field (`_get_class_name(class_id)`). -/
def Detection.cls (d : Detection) : String := getClassName d.class_id

/-- The detection's `is_jewelry` field (`_is_jewelry_class(class_id)`). -/
def Detection.is_jewelry (d : Detection) : Bool := isJewelryClass d.class_id

/-- The detection's `security_relevant` field. -/
def Detection.security_relevant (d : Detection) : Bool := isSecurityRelevant d.class_id

/-- The detection's `id` field, built in `enhanced_detection` as
`f"{class_name}_{cx}_{cy}"`. -/
def Detection.detId (d : Detection) : String :=
  d.cls ++ "_" ++ toString d.center.1 ++ "_" ++ toString d.center.2

/-- A tracked inventory item: the detection dict augmented with the tracking
fields added by `_update_jewelry_inventory`. -/
structure Item where
  id : String
  cls : String
  confidence : ℚ
  bbox : BBox
  center : Int × Int
  is_jewelry : Bool
  status : Status
  first_seen : Nat
  last_seen : Nat
  detection_count : Nat
  stable : Bool
  missing_since : Option Nat
deriving DecidableEq, Repr

/-- The inventory: a Python dict `item_id → item`, embedded as an ordered
association list. -/
abbrev Inventory : Type := List (String × Item)

/-- `config["tracking_tolerance"]` (default 50 px). -/
def trackingTolerance : Int := 50

/-- `_calculate_distance(p, q) <= tol`, expressed without the square root:
for a nonnegative tolerance, `sqrt(dx^2+dy^2) <= tol ↔ dx^2+dy^2 <= tol^2`. -/
def sqDist (p q : Int × Int) : Int :=
  (p.1 - q.1) ^ 2 + (p.2 - q.2) ^ 2

/-- Distance-within-tolerance test used by the matcher. -/
def sqDistLeTol (p q : Int × Int) : Bool :=
  decide (sqDist p q ≤ trackingTolerance ^ 2)

/-- The condition of `_find_matching_item`'s loop: same class, status
"present", and centers within the tracking tolerance. -/
def matchCond (it : Item) (d : Detection) : Bool :=
  decide (it.cls = d.cls) && decide (it.status = Status.present) &&
    sqDistLeTol it.center d.center

/-- `_find_matching_item`: scan `self.inventory.values()` in insertion order
and return the first item satisfying `matchCond`. -/
def findMatching : Inventory → Detection → Option Item
  | [], _ => none
  | p :: rest, d => if matchCond p.2 d then some p.2 else findMatching rest d

/-- `_items_match` (with the default tolerance): class equality plus the
spatial-tolerance rule. -/
def itemsMatch (a b : Item) : Bool :=
  decide (a.cls = b.cls) && sqDistLeTol a.center b.center

/-- `_generate_item_id`: `f"{class}_{cx}_{cy}_{int(time.time())}"`. -/
def generateItemId (d : Detection) (now : Nat) : String :=
  d.cls ++ "_" ++ toString d.center.1 ++ "_" ++ toString d.center.2
    ++ "_" ++ toString now

/-- Dict membership test (`item_id in new_inventory`). -/
def dcontains : Inventory → String → Bool
  | [], _ => false
  | p :: rest, k => decide (p.1 = k) || dcontains rest k

/-- Dict read (`inventory[k]`), first entry with the key. -/
def dlookup : Inventory → String → Option Item
  | [], _ => none
  | p :: rest, k => if p.1 = k then some p.2 else dlookup rest k

/-- Dict write `inv[k] = v`: overwrite in place if the key exists (Python
dicts keep the original position), otherwise append. -/
def dinsert (inv : Inventory) (k : String) (v : Item) : Inventory :=
  if dcontains inv k then
    inv.map fun p => if p.1 = k then (k, v) else p
  else inv ++ [(k, v)]

/-- The matched-item update of `_update_jewelry_inventory`
(`{**matched_item, "last_seen": now, "confidence": ..., "center": ...,
"status": "present", "detection_count": old + 1}`).  Note that the `bbox`
key is not among the overridden ones: it is kept from the matched item. -/
def applyMatch (it : Item) (d : Detection) (now : Nat) : Item :=
  { it with
    last_seen := now
    confidence := d.confidence
    center := d.center
    status := Status.present
    detection_count := it.detection_count + 1 }

/-- The new-item record of `_update_jewelry_inventory`
(`{**detection, "first_seen": now, "last_seen": now, "status": "present",
"detection_count": 1, "stable": False}`). -/
def newItemOfDetection (d : Detection) (now : Nat) : Item :=
  { id := d.detId
    cls := d.cls
    confidence := d.confidence
    bbox := d.bbox
    center := d.center
    is_jewelry := d.is_jewelry
    status := Status.present
    first_seen := now
    last_seen := now
    detection_count := 1
    stable := false
    missing_since := none }

/-- The marking applied to an unmatched jewelry item
(`item["status"] = "missing"; item["missing_since"] = current_time`). -/
def markMissing (it : Item) (now : Nat) : Item :=
  { it with status := Status.missing, missing_since := some now }

/-- First loop of `_update_jewelry_inventory`: for each jewelry detection,
either rewrite the matched item (stored under its `id` *field*) or insert a
fresh item under a newly generated id.  Matching always searches the old
`self.inventory`. -/
def updatePhase1 (inv : Inventory) (dets : List Detection) (now : Nat) : Inventory :=
  dets.foldl
    (fun acc d =>
      if d.is_jewelry then
        match findMatching inv d with
        | some it => dinsert acc it.id (applyMatch it d now)
        | none => dinsert acc (generateItemId d now) (newItemOfDetection d now)
      else acc)
    []

/-- Second loop of `_update_jewelry_inventory`: every old entry whose key is
not yet in `new_inventory` and whose item is jewelry is re-added with status
"missing" and `missing_since = now`. -/
def updatePhase2 (acc : Inventory) (old : Inventory) (now : Nat) : Inventory :=
  old.foldl
    (fun acc p =>
      if ¬ dcontains acc p.1 ∧ p.2.is_jewelry then
        acc ++ [(p.1, markMissing p.2 now)]
      else acc)
    acc

/-- `_update_jewelry_inventory`: build `new_inventory` from this frame's
detections, then carry over unmatched jewelry items as missing. -/
def updateInventory (inv : Inventory) (dets : List Detection) (now : Nat) : Inventory :=
  updatePhase2 (updatePhase1 inv dets now) inv now

/-- Aggregate details carried by a SUSPICIOUS_ACTIVITY alert. -/
structure SuspiciousDetails where
  people_count : Nat
  jewelry_present : Nat
  jewelry_expected : Nat
deriving DecidableEq, Repr

/-- An alert record (the fields the claims are about; the formatted
`message` string is omitted). -/
structure Alert where
  atype : String
  severity : String
  action_required : Bool
  timestamp : Nat
  item : Option Item
  details : Option SuspiciousDetails
deriving DecidableEq, Repr

/-- The MISSING_JEWELRY alert built in `_check_missing_from_baseline`. -/
def mkMissingAlert (b : Item) (now : Nat) : Alert :=
  { atype := "MISSING_JEWELRY"
    severity := "CRITICAL"
    action_required := true
    timestamp := now
    item := some b
    details := none }

/-- Does any *present* current item match this baseline item?
(the generator condition inside `_check_missing_from_baseline`). -/
def presentMatchExists (inv : Inventory) (b : Item) : Bool :=
  inv.any fun p =>
    decide (p.2.status = Status.present) && itemsMatch b p.2

/-- `_check_missing_from_baseline`: skipped entirely when the baseline is
empty; otherwise one CRITICAL alert per baseline jewelry item that no
present current item matches. -/
def checkMissingFromBaseline (baseline : List Item) (inv : Inventory) (now : Nat) :
    List Alert :=
  if baseline.isEmpty then []
  else
    baseline.foldl
      (fun acc b =>
        if b.is_jewelry ∧ ¬ presentMatchExists inv b then
          acc ++ [mkMissingAlert b now]
        else acc)
      []

/-- The NEW_JEWELRY alert built in `_check_unauthorized_items`. -/
def mkNewJewelryAlert (it : Item) (now : Nat) : Alert :=
  { atype := "NEW_JEWELRY"
    severity := "HIGH"
    action_required := true
    timestamp := now
    item := some it
    details := none }

/-- The stability-and-not-in-baseline condition of
`_check_unauthorized_items`: jewelry, present, `detection_count > 3`
(strictly), and matching no baseline item. -/
def unauthorizedCond (baseline : List Item) (it : Item) : Prop :=
  it.is_jewelry = true ∧ it.status = Status.present ∧ 3 < it.detection_count ∧
    ¬ baseline.any (fun b => itemsMatch it b) = true

instance (baseline : List Item) (it : Item) :
    Decidable (unauthorizedCond baseline it) := by
  unfold unauthorizedCond; infer_instance

/-- `_check_unauthorized_items`: one HIGH alert per stable present jewelry
item that is absent from the baseline. -/
def checkUnauthorizedItems (inv : Inventory) (baseline : List Item) (now : Nat) :
    List Alert :=
  inv.foldl
    (fun acc p =>
      if unauthorizedCond baseline p.2 then acc ++ [mkNewJewelryAlert p.2 now]
      else acc)
    []

/-- The MEDIUM alert built in `_check_low_confidence`. -/
def mkLowConfidenceAlert (it : Item) (now : Nat) : Alert :=
  { atype := "LOW_CONFIDENCE_JEWELRY"
    severity := "MEDIUM"
    action_required := false
    timestamp := now
    item := some it
    details := none }

/-- `_check_low_confidence`: jewelry, confidence below 0.3, present. -/
def checkLowConfidence (inv : Inventory) (now : Nat) : List Alert :=
  inv.foldl
    (fun acc p =>
      if p.2.is_jewelry = true ∧ p.2.confidence < 3 / 10 ∧
          p.2.status = Status.present then
        acc ++ [mkLowConfidenceAlert p.2 now]
      else acc)
    []

/-- Count of present "person"-classified inventory items
(`people_count` in `_check_suspicious_activity`). -/
def peopleCount (inv : Inventory) : Nat :=
  (inv.filter fun p =>
    decide (p.2.cls = "person") && decide (p.2.status = Status.present)).length

/-- Count of present jewelry inventory items (`jewelry_count`). -/
def jewelryPresentCount (inv : Inventory) : Nat :=
  (inv.filter fun p =>
    p.2.is_jewelry && decide (p.2.status = Status.present)).length

/-- The SUSPICIOUS_ACTIVITY alert with its aggregate counts. -/
def mkSuspiciousAlert (pc jc expected : Nat) (now : Nat) : Alert :=
  { atype := "SUSPICIOUS_ACTIVITY"
    severity := "HIGH"
    action_required := true
    timestamp := now
    item := none
    details := some ⟨pc, jc, expected⟩ }

/-- `_check_suspicious_activity`: alert iff people are present and the
present jewelry count is below `len(baseline) * 0.8`. -/
def checkSuspiciousActivity (inv : Inventory) (baseline : List Item) (now : Nat) :
    List Alert :=
  if 0 < peopleCount inv ∧
      (jewelryPresentCount inv : ℚ) < (baseline.length : ℚ) * (8 / 10) then
    [mkSuspiciousAlert (peopleCount inv) (jewelryPresentCount inv)
      baseline.length now]
  else []

/-- Python's `l[-n:]`: the last `n` elements (all of them when shorter). -/
def keepLast (n : Nat) (l : List Alert) : List Alert :=
  l.drop (l.length - n)

/-- The new alerts produced by one `_check_jewelry_alerts` evaluation, in
the order the source concatenates them. -/
def evalNewAlerts (inv : Inventory) (baseline : List Item) (now : Nat) : List Alert :=
  checkMissingFromBaseline baseline inv now
    ++ checkUnauthorizedItems inv baseline now
    ++ checkLowConfidence inv now
    ++ checkSuspiciousActivity inv baseline now

/-- `_check_jewelry_alerts`: extend the alert list with this evaluation's
alerts, then keep only the most recent 50 (`self.alerts = self.alerts[-50:]`). -/
def checkJewelryAlerts (alerts : List Alert) (inv : Inventory) (baseline : List Item)
    (now : Nat) : List Alert :=
  keepLast 50 (alerts ++ evalNewAlerts inv baseline now)

/-- The mutable state of `JewelryIntegrationModule` that the tracking core
reads and writes. -/
structure ModuleState where
  inventory : Inventory
  baseline : List Item
  alerts : List Alert
  tracking_active : Bool
deriving DecidableEq

/-- The dictionary returned by `_create_status_report` (nested dicts
flattened into one record). -/
structure Report where
  timestamp : Nat
  total_detections : Nat
  jewelry_detections : Nat
  security_detections : Nat
  total_items : Nat
  present_jewelry : Nat
  missing_jewelry : Nat
  baseline_count : Nat
  alerts_total : Nat
  alerts_critical : Nat
  alerts_high : Nat
  alerts_recent : List Alert
  tracking_active : Bool
deriving DecidableEq

/-- `_create_status_report`: a pure function of the module state and the
frame's detections; it reads `self.inventory`, `self.baseline_inventory`
and `self.alerts` and assigns none of them. -/
def createStatusReport (s : ModuleState) (dets : List Detection) (now : Nat) :
    Report :=
  { timestamp := now
    total_detections := dets.length
    jewelry_detections := (dets.filter fun d => d.is_jewelry).length
    security_detections := (dets.filter fun d => d.security_relevant).length
    total_items := s.inventory.length
    present_jewelry :=
      (s.inventory.filter fun p =>
        p.2.is_jewelry && decide (p.2.status = Status.present)).length
    missing_jewelry :=
      (s.inventory.filter fun p =>
        p.2.is_jewelry && decide (p.2.status = Status.missing)).length
    baseline_count := s.baseline.length
    alerts_total := s.alerts.length
    alerts_critical := (s.alerts.filter fun a => decide (a.severity = "CRITICAL")).length
    alerts_high := (s.alerts.filter fun a => decide (a.severity = "HIGH")).length
    alerts_recent := keepLast 5 s.alerts
    tracking_active := s.tracking_active }

/-- `get_jewelry_status`: returns `_create_status_report([])` and performs
no state assignment, so the embedding threads the state through unchanged. -/
def getJewelryStatus (s : ModuleState) (now : Nat) : Report × ModuleState :=
  (createStatusReport s [] now, s)

/-! ### Concrete test fixtures -/

/-- A jewelry detection (class 80 = "ring") at a given center. -/
def ringDet (c : Int × Int) : Detection :=
  { class_id := 80, confidence := 9 / 10, bbox := ⟨0, 0, 10, 10⟩, center := c }

/-- A "person" detection (class 0). -/
def personDet : Detection :=
  { class_id := 0, confidence := 9 / 10, bbox := ⟨0, 0, 10, 10⟩, center := (0, 0) }

/-- A concrete jewelry item for tests. -/
def testItem (id cls : String) (c : Int × Int) (st : Status) (cnt fs : Nat) :
    Item :=
  { id := id
    cls := cls
    confidence := 9 / 10
    bbox := ⟨0, 0, 10, 10⟩
    center := c
    is_jewelry := true
    status := st
    first_seen := fs
    last_seen := fs
    detection_count := cnt
    stable := false
    missing_since := none }

/-- A concrete present "person" item (constructible state value; the update
never produces one, which is exactly claim C10). -/
def personItem : Item :=
  { id := "person_0_0"
    cls := "person"
    confidence := 9 / 10
    bbox := ⟨0, 0, 10, 10⟩
    center := (0, 0)
    is_jewelry := false
    status := Status.present
    first_seen := 0
    last_seen := 0
    detection_count := 1
    stable := false
    missing_since := none }

/-! ### Helper lemmas on the dictionary embedding -/

theorem dcontains_append (l1 l2 : Inventory) (k : String) :
    dcontains (l1 ++ l2) k = (dcontains l1 k || dcontains l2 k) := by
  induction l1 with
  | nil => simp [dcontains]
  | cons p rest ih => simp [dcontains, ih, Bool.or_assoc]

theorem dlookup_append_of_some (l1 l2 : Inventory) (k : String) (v : Item)
    (h : dlookup l1 k = some v) : dlookup (l1 ++ l2) k = some v := by
  induction l1 with
  | nil => simp [dlookup] at h
  | cons p rest ih =>
    by_cases hk : p.1 = k
    · simpa [dlookup, hk] using h
    · simp [dlookup, hk] at h ⊢
      exact ih h

theorem dlookup_append_right (l1 l2 : Inventory) (k : String)
    (h : dcontains l1 k = false) : dlookup (l1 ++ l2) k = dlookup l2 k := by
  induction l1 with
  | nil => simp
  | cons p rest ih =>
    simp [dcontains] at h
    simp [dlookup, h.1, ih h.2]

theorem dlookup_of_dcontains_false (l : Inventory) (k : String)
    (h : dcontains l k = false) : dlookup l k = none := by
  induction l with
  | nil => rfl
  | cons p rest ih =>
    simp [dcontains] at h
    simp [dlookup, h.1, ih h.2]

theorem mem_dinsert (l : Inventory) (k : String) (v : Item) (x : String × Item)
    (h : x ∈ dinsert l k v) : x ∈ l ∨ x = (k, v) := by
  unfold dinsert at h
  by_cases hc : dcontains l k
  · rw [if_pos hc] at h
    obtain ⟨p, hp, hfp⟩ := List.mem_map.1 h
    by_cases hk : p.1 = k
    · rw [if_pos hk] at hfp
      exact Or.inr hfp.symm
    · rw [if_neg hk] at hfp
      exact Or.inl (hfp ▸ hp)
  · rw [if_neg hc] at h
    rcases List.mem_append.1 h with h | h
    · exact Or.inl h
    · exact Or.inr (by simpa using h)

theorem dcontains_map_overwrite (l : Inventory) (k k' : String) (v : Item)
    (h : dcontains l k = false) (hne : k' ≠ k) :
    dcontains (l.map fun p => if p.1 = k' then (k', v) else p) k = false := by
  induction l with
  | nil => rfl
  | cons p rest ih =>
    simp only [dcontains, Bool.or_eq_false_iff, decide_eq_false_iff_not] at h
    by_cases hp : p.1 = k'
    · simp [dcontains, hp, ih h.2, hne]
    · simp [dcontains, hp, h.1, ih h.2]

theorem dcontains_dinsert_false (l : Inventory) (k k' : String) (v : Item)
    (h : dcontains l k = false) (hne : k' ≠ k) :
    dcontains (dinsert l k' v) k = false := by
  unfold dinsert
  by_cases hc : dcontains l k'
  · rw [if_pos hc]
    exact dcontains_map_overwrite l k k' v h hne
  · rw [if_neg hc, dcontains_append, h]
    simp [dcontains, hne]

theorem dinsert_nil (k : String) (v : Item) : dinsert [] k v = [(k, v)] := by
  simp [dinsert, dcontains]

/-! ### Lemmas about the two phases of the inventory update -/

/-- The key under which one jewelry detection is stored by the first loop:
the matched item's id field, or the freshly generated id. -/
def phase1Key (inv : Inventory) (d : Detection) (now : Nat) : String :=
  match findMatching inv d with
  | some it => it.id
  | none => generateItemId d now

theorem updatePhase1_foldl (inv : Inventory) (dets : List Detection)
    (now : Nat) (acc : Inventory) :
    dets.foldl
      (fun acc d =>
        if d.is_jewelry then
          match findMatching inv d with
          | some it => dinsert acc it.id (applyMatch it d now)
          | none => dinsert acc (generateItemId d now) (newItemOfDetection d now)
        else acc)
      acc
    = dets.foldl
        (fun acc d =>
          if d.is_jewelry then
            dinsert acc (phase1Key inv d now)
              (match findMatching inv d with
               | some it => applyMatch it d now
               | none => newItemOfDetection d now)
          else acc)
        acc := by
  induction dets generalizing acc with
  | nil => rfl
  | cons d rest ih =>
    simp only [List.foldl_cons]
    rcases hm : findMatching inv d with _ | it <;>
      simp only [phase1Key, hm] <;> exact ih _

/-- If no jewelry detection of this frame is stored under key `k`, the first
loop leaves `k` absent from the new inventory. -/
theorem dcontains_updatePhase1_false (inv : Inventory) (dets : List Detection)
    (now : Nat) (k : String)
    (h : ∀ d ∈ dets, d.is_jewelry = true → phase1Key inv d now ≠ k) :
    dcontains (updatePhase1 inv dets now) k = false := by
  unfold updatePhase1
  rw [updatePhase1_foldl]
  have aux : ∀ (l : List Detection) (acc : Inventory),
      dcontains acc k = false →
      (∀ d ∈ l, d.is_jewelry = true → phase1Key inv d now ≠ k) →
      dcontains
        (l.foldl
          (fun acc d =>
            if d.is_jewelry then
              dinsert acc (phase1Key inv d now)
                (match findMatching inv d with
                 | some it => applyMatch it d now
                 | none => newItemOfDetection d now)
            else acc)
          acc) k = false := by
    intro l
    induction l with
    | nil => intro acc hacc _; exact hacc
    | cons d rest ih =>
      intro acc hacc hl
      simp only [List.foldl_cons]
      by_cases hj : d.is_jewelry = true
      · rw [if_pos hj]
        refine ih _ ?_ fun d' hd' => hl d' (List.mem_cons_of_mem _ hd')
        exact dcontains_dinsert_false _ _ _ _ hacc
          (hl d (List.mem_cons_self _ _) hj)
      · rw [if_neg hj]
        exact ih _ hacc fun d' hd' => hl d' (List.mem_cons_of_mem _ hd')
  exact aux dets [] rfl h

/-- Membership in the accumulator is preserved by the second loop
(it only ever appends). -/
theorem mem_updatePhase2_of_mem (old : Inventory) (acc : Inventory) (now : Nat)
    (x : String × Item) (h : x ∈ acc) : x ∈ updatePhase2 acc old now := by
  unfold updatePhase2
  induction old generalizing acc with
  | nil => exact h
  | cons p rest ih =>
    simp only [List.foldl_cons]
    by_cases hc : ¬ dcontains acc p.1 ∧ p.2.is_jewelry
    · rw [if_pos hc]
      exact ih _ (List.mem_append_left _ h)
    · rw [if_neg hc]
      exact ih _ h

/-- A key already present in the accumulator is still present after the
second loop. -/
theorem dcontains_updatePhase2_of_true (old : Inventory) (acc : Inventory)
    (now : Nat) (k : String) (h : dcontains acc k = true) :
    dcontains (updatePhase2 acc old now) k = true := by
  unfold updatePhase2
  induction old generalizing acc with
  | nil => exact h
  | cons p rest ih =>
    simp only [List.foldl_cons]
    by_cases hc : ¬ dcontains acc p.1 ∧ p.2.is_jewelry
    · rw [if_pos hc]
      exact ih _ (by rw [dcontains_append, h]; rfl)
    · rw [if_neg hc]
      exact ih _ h

/-- Every key of an old jewelry entry is a key of the updated inventory:
the second loop re-adds it if the first did not already produce it. -/
theorem dcontains_updatePhase2_of_mem (old : Inventory) (acc : Inventory)
    (now : Nat) (k : String) (it : Item)
    (hmem : (k, it) ∈ old) (hj : it.is_jewelry = true) :
    dcontains (updatePhase2 acc old now) k = true := by
  unfold updatePhase2
  induction old generalizing acc with
  | nil => cases hmem
  | cons p rest ih =>
    simp only [List.foldl_cons]
    rcases List.mem_cons.1 hmem with heq | hmem'
    · by_cases hck : dcontains acc k
      · by_cases hc : ¬ dcontains acc p.1 ∧ p.2.is_jewelry
        · rw [if_pos hc]
          exact dcontains_updatePhase2_of_true _ _ _ _
            (by rw [dcontains_append, hck]; rfl)
        · rw [if_neg hc]
          exact dcontains_updatePhase2_of_true _ _ _ _ hck
      · have hp1 : p.1 = k := by rw [← heq]
        have hp2 : p.2.is_jewelry = true := by rw [← heq]; exact hj
        have hc : ¬ dcontains acc p.1 ∧ p.2.is_jewelry := by
          rw [hp1]; exact ⟨hck, hp2⟩
        rw [if_pos hc]
        refine dcontains_updatePhase2_of_true _ _ _ _ ?_
        rw [dcontains_append]
        simp [dcontains, hp1]
    · by_cases hc : ¬ dcontains acc p.1 ∧ p.2.is_jewelry
      · rw [if_pos hc]; exact ih _ hmem'
      · rw [if_neg hc]; exact ih _ hmem'

/-- The second loop never touches a key that does not occur in the old
inventory. -/
theorem dlookup_updatePhase2_stable (old : Inventory) (acc : Inventory)
    (now : Nat) (k : String) (v : Item)
    (h : dlookup acc k = some v) (hk : ∀ p ∈ old, p.1 ≠ k) :
    dlookup (updatePhase2 acc old now) k = some v := by
  unfold updatePhase2
  induction old generalizing acc with
  | nil => exact h
  | cons p rest ih =>
    simp only [List.foldl_cons]
    have hne : p.1 ≠ k := hk p (List.mem_cons_self _ _)
    have hrest : ∀ q ∈ rest, q.1 ≠ k := fun q hq => hk q (List.mem_cons_of_mem _ hq)
    by_cases hc : ¬ dcontains acc p.1 ∧ p.2.is_jewelry
    · rw [if_pos hc]
      exact ih _ (dlookup_append_of_some _ _ _ _ h) hrest
    · rw [if_neg hc]
      exact ih _ h hrest

/-- Core of the missing-transition behavior: an old jewelry entry whose key
the first loop did not produce is re-added by the second loop with status
missing and `missing_since = now`, and that is the value the updated
inventory holds at its key (assuming the old dict's keys are distinct, as
Python dict keys are). -/
theorem dlookup_updatePhase2_marks (old : Inventory) (acc : Inventory)
    (now : Nat) (k : String) (it : Item)
    (hmem : (k, it) ∈ old) (hj : it.is_jewelry = true)
    (hnd : (old.map Prod.fst).Nodup) (hacc : dcontains acc k = false) :
    dlookup (updatePhase2 acc old now) k = some (markMissing it now) := by
  induction old generalizing acc with
  | nil => cases hmem
  | cons p rest ih =>
    rw [List.map_cons, List.nodup_cons] at hnd
    obtain ⟨hnotin, hnd'⟩ := hnd
    rcases List.mem_cons.1 hmem with heq | hmem'
    · have hp1 : p.1 = k := by rw [← heq]
      have hp2 : p.2 = it := by rw [← heq]
      have hknotrest : ∀ q ∈ rest, q.1 ≠ k := by
        intro q hq
        rw [hp1] at hnotin
        intro hqk
        exact hnotin (hqk ▸ List.mem_map_of_mem Prod.fst hq)
      have hc : ¬ dcontains acc p.1 ∧ p.2.is_jewelry := by
        rw [hp1, hp2]; exact ⟨by simp [hacc], hj⟩
      unfold updatePhase2
      simp only [List.foldl_cons]
      rw [if_pos hc]
      have hlook : dlookup (acc ++ [(p.1, markMissing p.2 now)]) k
          = some (markMissing it now) := by
        rw [dlookup_append_right _ _ _ hacc, hp1, hp2]
        simp [dlookup]
      exact dlookup_updatePhase2_stable rest _ now k _ hlook hknotrest
    · have hkrest : k ∈ rest.map Prod.fst := List.mem_map_of_mem Prod.fst hmem'
      have hp1ne : p.1 ≠ k := by
        intro h; exact hnotin (h ▸ hkrest)
      unfold updatePhase2
      simp only [List.foldl_cons]
      by_cases hc : ¬ dcontains acc p.1 ∧ p.2.is_jewelry
      · rw [if_pos hc]
        have hacc' : dcontains (acc ++ [(p.1, markMissing p.2 now)]) k = false := by
          rw [dcontains_append, hacc]
          simp [dcontains, hp1ne]
        exact ih _ hmem' hnd' hacc'
      · rw [if_neg hc]
        exact ih _ hmem' hnd' hacc

/-! ### Lemmas about the matcher -/

/-- A matched item always has status "present": the matcher's loop filters
on `status == "present"`. -/
theorem findMatching_present (inv : Inventory) (d : Detection) (it : Item)
    (h : findMatching inv d = some it) : it.status = Status.present := by
  induction inv with
  | nil => cases h
  | cons p rest ih =>
    unfold findMatching at h
    by_cases hm : matchCond p.2 d
    · rw [if_pos hm] at h
      cases h
      have := hm
      unfold matchCond at this
      simp only [Bool.and_eq_true, decide_eq_true_eq] at this
      exact this.1.2
    · rw [if_neg hm] at h
      exact ih h

/-- A matched item is a value of the inventory. -/
theorem findMatching_mem (inv : Inventory) (d : Detection) (it : Item)
    (h : findMatching inv d = some it) : ∃ k, (k, it) ∈ inv := by
  induction inv with
  | nil => cases h
  | cons p rest ih =>
    unfold findMatching at h
    by_cases hm : matchCond p.2 d
    · rw [if_pos hm] at h
      cases h
      exact ⟨p.1, List.mem_cons_self _ _⟩
    · rw [if_neg hm] at h
      obtain ⟨k, hk⟩ := ih h
      exact ⟨k, List.mem_cons_of_mem _ hk⟩

/-- The matcher returns `none` exactly when no inventory item satisfies the
matching condition. -/
theorem findMatching_none_iff (inv : Inventory) (d : Detection) :
    findMatching inv d = none ↔ ∀ p ∈ inv, matchCond p.2 d = false := by
  induction inv with
  | nil => simp [findMatching]
  | cons p rest ih =>
    unfold findMatching
    by_cases hm : matchCond p.2 d
    · simp [hm]
    · simp only [if_neg hm, ih, List.mem_cons]
      constructor
      · rintro h q (rfl | hq)
        · simpa using hm
        · exact h q hq
      · intro h q hq
        exact h q (Or.inr hq)

/-- The matcher returns the first qualifying entry in insertion order. -/
theorem findMatching_first (inv : Inventory) (d : Detection) (it : Item)
    (h : findMatching inv d = some it) :
    matchCond it d = true ∧
    ∃ l1 k l2, inv = l1 ++ (k, it) :: l2 ∧ ∀ p ∈ l1, matchCond p.2 d = false := by
  induction inv with
  | nil => cases h
  | cons p rest ih =>
    unfold findMatching at h
    by_cases hm : matchCond p.2 d
    · rw [if_pos hm] at h
      cases h
      exact ⟨hm, [], p.1, rest, by simp, by simp⟩
    · rw [if_neg hm] at h
      obtain ⟨hcond, l1, k, l2, hsplit, hfail⟩ := ih h
      refine ⟨hcond, p :: l1, k, l2, by simp [hsplit], ?_⟩
      intro q hq
      rcases List.mem_cons.1 hq with rfl | hq2
      · simpa using hm
      · exact hfail q hq2

/-! ### Characterizations of the alert checks -/

theorem checkMissingFromBaseline_eq (baseline : List Item) (inv : Inventory)
    (now : Nat) :
    checkMissingFromBaseline baseline inv now
      = (baseline.filter fun b =>
          decide (b.is_jewelry ∧ ¬ presentMatchExists inv b)).map
          (fun b => mkMissingAlert b now) := by
  have aux : ∀ (l : List Item) (acc : List Alert),
      l.foldl
        (fun acc b =>
          if b.is_jewelry ∧ ¬ presentMatchExists inv b then
            acc ++ [mkMissingAlert b now]
          else acc)
        acc
      = acc ++ (l.filter fun b =>
          decide (b.is_jewelry ∧ ¬ presentMatchExists inv b)).map
          (fun b => mkMissingAlert b now) := by
    intro l
    induction l with
    | nil => intro acc; simp
    | cons b xs ih =>
      intro acc
      simp only [List.foldl_cons]
      by_cases h : b.is_jewelry ∧ ¬ presentMatchExists inv b
      · rw [if_pos h, ih]
        obtain ⟨h1, h2⟩ := h
        have h3 : presentMatchExists inv b = false := by
          cases hpm : presentMatchExists inv b
          · rfl
          · exact absurd hpm h2
        simp [List.filter_cons, h1, h3]
      · rw [if_neg h, ih]
        have hsplit : b.is_jewelry = false ∨ presentMatchExists inv b = true := by
          by_cases h1 : b.is_jewelry = true
          · by_cases h2 : presentMatchExists inv b = true
            · exact Or.inr h2
            · exact absurd ⟨h1, h2⟩ h
          · exact Or.inl (by revert h1; cases b.is_jewelry <;> simp)
        rcases hsplit with h1 | h1 <;> simp [List.filter_cons, h1]
  unfold checkMissingFromBaseline
  by_cases he : baseline.isEmpty
  · rw [if_pos he]
    rw [List.isEmpty_iff] at he
    rw [he]
    rfl
  · rw [if_neg he]
    exact aux baseline []

theorem checkUnauthorizedItems_eq (inv : Inventory) (baseline : List Item)
    (now : Nat) :
    checkUnauthorizedItems inv baseline now
      = (inv.filter fun p => decide (unauthorizedCond baseline p.2)).map
          (fun p => mkNewJewelryAlert p.2 now) := by
  have aux : ∀ (l : Inventory) (acc : List Alert),
      l.foldl
        (fun acc p =>
          if unauthorizedCond baseline p.2 then acc ++ [mkNewJewelryAlert p.2 now]
          else acc)
        acc
      = acc ++ (l.filter fun p => decide (unauthorizedCond baseline p.2)).map
          (fun p => mkNewJewelryAlert p.2 now) := by
    intro l
    induction l with
    | nil => intro acc; simp
    | cons p xs ih =>
      intro acc
      simp only [List.foldl_cons]
      by_cases h : unauthorizedCond baseline p.2
      · rw [if_pos h, ih]
        have hd := decide_eq_true h
        simp [List.filter_cons, hd]
      · rw [if_neg h, ih]
        have hd := decide_eq_false h
        simp [List.filter_cons, hd]
  exact aux inv []

/-! ### Lemmas about the bounded alert list -/

theorem keepLast_length_le (n : Nat) (l : List Alert) :
    (keepLast n l).length ≤ n := by
  simp only [keepLast, List.length_drop]
  omega

theorem keepLast_eq_tail (l : List Alert) (h : l.length = 51) :
    keepLast 50 l = l.tail := by
  unfold keepLast
  rw [h]
  norm_num

theorem keepLast_decomp (n : Nat) (l : List Alert) :
    l.take (l.length - n) ++ keepLast n l = l :=
  List.take_append_drop _ _

/-! ### The jewelry-only invariant of the inventory -/

/-- Every value stored in the inventory is jewelry-classified, and in
particular not "person"-classified. -/
def jewelryOnly (inv : Inventory) : Prop :=
  ∀ p ∈ inv, p.2.is_jewelry = true ∧ p.2.cls ≠ "person"

theorem isJewelryClass_not_person (cid : Nat) (h : isJewelryClass cid = true) :
    getClassName cid ≠ "person" := by
  unfold isJewelryClass at h
  simp only [List.mem_cons, List.not_mem_nil, or_false, decide_eq_true_eq] at h
  rcases h with rfl | rfl | rfl | rfl | rfl | rfl | rfl | rfl <;> decide

theorem jewelryOnly_updatePhase1 (inv : Inventory) (dets : List Detection)
    (now : Nat) (hinv : jewelryOnly inv) :
    ∀ p ∈ updatePhase1 inv dets now, p.2.is_jewelry = true ∧ p.2.cls ≠ "person" := by
  unfold updatePhase1
  have aux : ∀ (l : List Detection) (acc : Inventory),
      (∀ p ∈ acc, p.2.is_jewelry = true ∧ p.2.cls ≠ "person") →
      ∀ p ∈ l.foldl
        (fun acc d =>
          if d.is_jewelry then
            match findMatching inv d with
            | some it => dinsert acc it.id (applyMatch it d now)
            | none => dinsert acc (generateItemId d now) (newItemOfDetection d now)
          else acc)
        acc, p.2.is_jewelry = true ∧ p.2.cls ≠ "person" := by
    intro l
    induction l with
    | nil => intro acc hacc; exact hacc
    | cons d xs ih =>
      intro acc hacc
      simp only [List.foldl_cons]
      by_cases hj : d.is_jewelry = true
      · rw [if_pos hj]
        rcases hm : findMatching inv d with _ | it
        · refine ih _ ?_
          intro p hp
          rcases mem_dinsert _ _ _ _ hp with hp' | hp'
          · exact hacc p hp'
          · rw [hp']
            refine ⟨hj, ?_⟩
            show d.cls ≠ "person"
            exact isJewelryClass_not_person d.class_id hj
        · refine ih _ ?_
          intro p hp
          rcases mem_dinsert _ _ _ _ hp with hp' | hp'
          · exact hacc p hp'
          · rw [hp']
            obtain ⟨k, hk⟩ := findMatching_mem inv d it hm
            exact hinv (k, it) hk
      · rw [if_neg hj]
        exact ih _ hacc
  exact aux dets [] (by intro p hp; cases hp)

theorem jewelryOnly_updatePhase2 : ∀ (old acc : Inventory) (now : Nat),
    (∀ p ∈ acc, p.2.is_jewelry = true ∧ p.2.cls ≠ "person") →
    jewelryOnly old →
    ∀ p ∈ updatePhase2 acc old now, p.2.is_jewelry = true ∧ p.2.cls ≠ "person" := by
  intro old
  induction old with
  | nil => intro acc now hacc _; exact hacc
  | cons q rest ih =>
    intro acc now hacc hold
    have hq := hold q (List.mem_cons_self _ _)
    have hrest : jewelryOnly rest := fun r hr => hold r (List.mem_cons_of_mem _ hr)
    unfold updatePhase2
    simp only [List.foldl_cons]
    by_cases hc : ¬ dcontains acc q.1 ∧ q.2.is_jewelry
    · rw [if_pos hc]
      refine ih _ now ?_ hrest
      intro p hp
      rcases List.mem_append.1 hp with hp' | hp'
      · exact hacc p hp'
      · have hpq : p = (q.1, markMissing q.2 now) := by simpa using hp'
        rw [hpq]
        exact ⟨hq.1, hq.2⟩
    · rw [if_neg hc]
      exact ih _ now hacc hrest

theorem jewelryOnly_updateInventory (inv : Inventory) (dets : List Detection)
    (now : Nat) (hinv : jewelryOnly inv) :
    jewelryOnly (updateInventory inv dets now) := by
  unfold updateInventory
  exact jewelryOnly_updatePhase2 inv _ now
    (jewelryOnly_updatePhase1 inv dets now hinv) hinv

theorem peopleCount_eq_zero : ∀ (inv : Inventory),
    (∀ p ∈ inv, p.2.cls ≠ "person") → peopleCount inv = 0 := by
  intro inv
  induction inv with
  | nil => intro _; rfl
  | cons p rest ih =>
    intro h
    have hp := h p (List.mem_cons_self _ _)
    have hr := ih fun q hq => h q (List.mem_cons_of_mem _ hq)
    simp only [peopleCount, List.filter_cons] at hr ⊢
    simp [hp, hr]

/-! ### Claim theorems -/

/-- C1: for every jewelry-classified baseline item that no currently present
inventory item matches (same class, centers within the tracking tolerance),
`_check_missing_from_baseline` emits exactly one MISSING_JEWELRY alert with
severity CRITICAL and action_required, in baseline order (the filter–map
equality); and an empty/absent baseline yields no alerts. -/
theorem missing_from_baseline_spec (baseline : List Item) (inv : Inventory)
    (now : Nat) :
    (baseline = [] → checkMissingFromBaseline baseline inv now = []) ∧
    checkMissingFromBaseline baseline inv now
      = (baseline.filter fun b =>
          decide (b.is_jewelry ∧ ¬ presentMatchExists inv b)).map
          (fun b => mkMissingAlert b now) ∧
    ∀ a ∈ checkMissingFromBaseline baseline inv now,
      a.atype = "MISSING_JEWELRY" ∧ a.severity = "CRITICAL" ∧
        a.action_required = true := by
  refine ⟨?_, checkMissingFromBaseline_eq baseline inv now, ?_⟩
  · intro h
    rw [h]
    rfl
  · intro a ha
    rw [checkMissingFromBaseline_eq] at ha
    obtain ⟨b, _, rfl⟩ := List.mem_map.1 ha
    exact ⟨rfl, rfl, rfl⟩

theorem missing_from_baseline_spec_witness :
    checkMissingFromBaseline [] [] 0 = [] ∧
    checkMissingFromBaseline [testItem "b1" "ring" (100, 100) Status.present 3 0]
        [] 5
      = [mkMissingAlert (testItem "b1" "ring" (100, 100) Status.present 3 0) 5] := by
  constructor
  · exact (missing_from_baseline_spec [] [] 0).1 rfl
  · rw [(missing_from_baseline_spec
      [testItem "b1" "ring" (100, 100) Status.present 3 0] [] 5).2.1]
    rfl

/-- The first tracked ring of the C4 scenario: it was once re-stored under
its id field (key "ring_100_100") and its center has since drifted to
(200,100) through matches (the id field never changes). -/
def itemA4 : Item := testItem "ring_100_100" "ring" (200, 100) Status.present 3 0

/-- A second ring created later by a detection at (100,100) — A's original
center — so its id field is also "ring_100_100"; its key carries the
creation time. -/
def itemB4 : Item := testItem "ring_100_100" "ring" (100, 100) Status.present 2 5

/-- Inventory holding both rings; their id fields collide on A's key. -/
def cex4Inv : Inventory := [("ring_100_100", itemA4), ("ring_100_100_5", itemB4)]

/-- A ring detection at (100,100): within tolerance of B only. -/
def cex4Det : Detection := ringDet (100, 100)

/-- C4 counterexample: item A is present and matched by no detection of the
frame (it fails the matching condition for the only detection, which matches
B), yet the update DELETES it: the matched rewrite stores B's update under
B's id field — which is A's key — so the second loop sees A's key taken and
drops A.  A is neither marked missing nor retained: A's key now holds B's
update, and no stored value even has A's center (both A and
`markMissing itemA4 9` have center (200,100)), refuting "status missing,
missing_since set, never deleted". -/
theorem missing_transition_counterexample :
    itemA4.status = Status.present ∧
    itemA4.is_jewelry = true ∧
    matchCond itemA4 cex4Det = false ∧
    findMatching cex4Inv cex4Det = some itemB4 ∧
    itemB4.id = "ring_100_100" ∧
    updateInventory cex4Inv [cex4Det] 9
      = [("ring_100_100", applyMatch itemB4 cex4Det 9),
         ("ring_100_100_5", markMissing itemB4 9)] ∧
    dlookup (updateInventory cex4Inv [cex4Det] 9) "ring_100_100"
      = some (applyMatch itemB4 cex4Det 9) ∧
    ((updateInventory cex4Inv [cex4Det] 9).all
      fun p => !(decide (p.2.center = itemA4.center))) = true :=
  ⟨rfl, rfl, rfl, rfl, rfl, rfl, rfl, rfl⟩

/-- C4 amended: a stored jewelry item matched by no detection of the update
transitions to (or stays) missing with `missing_since = now` and remains in
the inventory at its key, PROVIDED no jewelry detection of the update stores
its result under that key (`phase1Key` differs from it for every jewelry
detection) — the rewrite at line 271 keys matched items by their id field,
so the proviso can fail only when some matched item's id field equals this
item's key, as in the counterexample, and then the item is deleted outright.
The conclusion is value-level: the updated inventory's entry at the key IS
the missing-marked item.  The statement needs no "present" hypothesis and
the marked value is still jewelry, so re-applying it at each later update
whose detections also avoid the key shows the item is never deleted under
the amended proviso. -/
theorem missing_transition_spec (inv : Inventory) (dets : List Detection)
    (now : Nat) (k : String) (it : Item)
    (hmem : (k, it) ∈ inv) (hj : it.is_jewelry = true)
    (hnd : (inv.map Prod.fst).Nodup)
    (hkeys : ∀ d ∈ dets, d.is_jewelry = true → phase1Key inv d now ≠ k) :
    dlookup (updateInventory inv dets now) k = some (markMissing it now) ∧
    (markMissing it now).status = Status.missing ∧
    (markMissing it now).missing_since = some now ∧
    (markMissing it now).is_jewelry = it.is_jewelry := by
  refine ⟨?_, rfl, rfl, rfl⟩
  unfold updateInventory
  exact dlookup_updatePhase2_marks inv _ now k it hmem hj hnd
    (dcontains_updatePhase1_false inv dets now k hkeys)

theorem missing_transition_spec_witness :
    dlookup
      (updateInventory [("k1", testItem "r" "ring" (10, 10) Status.present 5 0)]
        [] 7) "k1"
      = some (markMissing (testItem "r" "ring" (10, 10) Status.present 5 0) 7) ∧
    (markMissing (testItem "r" "ring" (10, 10) Status.present 5 0) 7).status
      = Status.missing :=
  have h := missing_transition_spec
    [("k1", testItem "r" "ring" (10, 10) Status.present 5 0)] [] 7 "k1"
    (testItem "r" "ring" (10, 10) Status.present 5 0)
    (List.mem_singleton.2 rfl) rfl (by simp) (by simp)
  ⟨h.1, h.2.1⟩

/-- C6: `_check_suspicious_activity` emits the SUSPICIOUS_ACTIVITY alert
(severity HIGH, action_required, carrying people_count, jewelry_present and
jewelry_expected) exactly when people are present and the present jewelry
count is strictly below 80% of the baseline count, and emits nothing when
present jewelry is at or above that threshold. -/
theorem suspicious_activity_spec (inv : Inventory) (baseline : List Item)
    (now : Nat) :
    (0 < peopleCount inv →
      (jewelryPresentCount inv : ℚ) < (baseline.length : ℚ) * (8 / 10) →
      checkSuspiciousActivity inv baseline now
        = [mkSuspiciousAlert (peopleCount inv) (jewelryPresentCount inv)
            baseline.length now]) ∧
    ((baseline.length : ℚ) * (8 / 10) ≤ (jewelryPresentCount inv : ℚ) →
      checkSuspiciousActivity inv baseline now = []) ∧
    (mkSuspiciousAlert (peopleCount inv) (jewelryPresentCount inv)
        baseline.length now).atype = "SUSPICIOUS_ACTIVITY" ∧
    (mkSuspiciousAlert (peopleCount inv) (jewelryPresentCount inv)
        baseline.length now).severity = "HIGH" ∧
    (mkSuspiciousAlert (peopleCount inv) (jewelryPresentCount inv)
        baseline.length now).action_required = true ∧
    (mkSuspiciousAlert (peopleCount inv) (jewelryPresentCount inv)
        baseline.length now).details
      = some ⟨peopleCount inv, jewelryPresentCount inv, baseline.length⟩ := by
  refine ⟨?_, ?_, rfl, rfl, rfl, rfl⟩
  · intro h1 h2
    unfold checkSuspiciousActivity
    rw [if_pos ⟨h1, h2⟩]
  · intro h
    unfold checkSuspiciousActivity
    rw [if_neg]
    rintro ⟨_, hlt⟩
    exact absurd hlt (not_lt.2 h)

theorem suspicious_activity_spec_witness :
    checkSuspiciousActivity [("p", personItem)]
        [testItem "b" "ring" (0, 0) Status.present 3 0] 2
      = [mkSuspiciousAlert 1 0 1 2] ∧
    checkSuspiciousActivity [] [] 3 = [] := by
  constructor
  · have hpc : peopleCount [("p", personItem)] = 1 := rfl
    have hjc : jewelryPresentCount [("p", personItem)] = 0 := rfl
    have h := (suspicious_activity_spec [("p", personItem)]
      [testItem "b" "ring" (0, 0) Status.present 3 0] 2).1
      (by rw [hpc]; norm_num) (by rw [hjc]; norm_num)
    exact h
  · exact (suspicious_activity_spec [] [] 3).2.1 (by norm_num)

/-- C7: every `_check_jewelry_alerts` evaluation leaves at most 50 alerts,
the kept alerts are exactly the most recent ones (the evaluation's full
alert sequence equals its dropped oldest part followed by the kept part,
FIFO), and appending a 51st alert keeps exactly 50: the oldest is gone and
the second-oldest is now first. -/
theorem alert_ring_spec (alerts : List Alert) (inv : Inventory)
    (baseline : List Item) (now : Nat) :
    (checkJewelryAlerts alerts inv baseline now).length ≤ 50 ∧
    (alerts ++ evalNewAlerts inv baseline now).take
        ((alerts ++ evalNewAlerts inv baseline now).length - 50)
      ++ checkJewelryAlerts alerts inv baseline now
      = alerts ++ evalNewAlerts inv baseline now ∧
    (∀ l : List Alert, l.length = 51 →
      keepLast 50 l = l.tail ∧ (keepLast 50 l).length = 50) := by
  refine ⟨keepLast_length_le _ _, keepLast_decomp _ _, ?_⟩
  intro l h
  refine ⟨keepLast_eq_tail l h, ?_⟩
  simp [keepLast, h]

theorem alert_ring_spec_witness :
    (checkJewelryAlerts [] [] [] 0).length ≤ 50 ∧
    keepLast 50 (List.replicate 51 (mkSuspiciousAlert 0 0 0 0))
      = (List.replicate 51 (mkSuspiciousAlert 0 0 0 0)).tail := by
  refine ⟨(alert_ring_spec [] [] [] 0).1, ?_⟩
  exact ((alert_ring_spec [] [] [] 0).2.2 _ (by simp)).1

/-- C9: the status query is a pure read: `get_jewelry_status` returns the
state unchanged, and a second call on the returned state (same clock) yields
the identical report. -/
theorem status_pure_read (s : ModuleState) (now : Nat) :
    (getJewelryStatus s now).2 = s ∧
    (getJewelryStatus (getJewelryStatus s now).2 now).1
      = (getJewelryStatus s now).1 :=
  ⟨rfl, rfl⟩

/-- C10: the update only ever stores jewelry-classified items (security
detections such as "person" are never inserted), so the present-person count
computed over the inventory is always zero. -/
theorem inventory_jewelry_invariant (inv : Inventory) (dets : List Detection)
    (now : Nat) (h : jewelryOnly inv) :
    jewelryOnly (updateInventory inv dets now) ∧
    peopleCount (updateInventory inv dets now) = 0 := by
  have hj := jewelryOnly_updateInventory inv dets now h
  exact ⟨hj, peopleCount_eq_zero _ fun p hp => (hj p hp).2⟩

theorem inventory_jewelry_invariant_witness :
    jewelryOnly (updateInventory [] [ringDet (5, 5), personDet] 3) ∧
    peopleCount (updateInventory [] [ringDet (5, 5), personDet] 3) = 0 :=
  inventory_jewelry_invariant [] [ringDet (5, 5), personDet] 3
    (by intro p hp; cases hp)

/-- A missing ring last seen at (100,100): the reappearance scenario of C2. -/
def missingRing : Item :=
  testItem "ring_100_100" "ring" (100, 100) Status.missing 4 1

/-- Inventory holding only the missing ring, under its creation-time key. -/
def cex2Inv : Inventory := [("ring_100_100_1", missingRing)]

/-- A fresh ring detection at the missing ring's last-known center. -/
def cex2Det : Detection := ringDet (100, 100)

/-- C2 counterexample: a detection at a missing item's last-known center is
NOT re-associated with it.  The matcher (which filters on status "present")
returns none, a brand-new item with detection_count = 1 is created under a
fresh id, the missing item stays missing, and no item of the updated
inventory continues the old count (4 + 1 = 5). -/
theorem reappearance_counterexample :
    missingRing.status = Status.missing ∧
    missingRing.detection_count = 4 ∧
    matchCond missingRing cex2Det
      = (decide (missingRing.status = Status.present) &&
          (decide (missingRing.cls = cex2Det.cls) &&
            sqDistLeTol missingRing.center cex2Det.center)) ∧
    findMatching cex2Inv cex2Det = none ∧
    updateInventory cex2Inv [cex2Det] 9
      = [("ring_100_100_9", newItemOfDetection cex2Det 9),
         ("ring_100_100_1", markMissing missingRing 9)] ∧
    (newItemOfDetection cex2Det 9).detection_count = 1 ∧
    (markMissing missingRing 9).status = Status.missing ∧
    (updateInventory cex2Inv [cex2Det] 9).all
      (fun p => !(decide (p.2.status = Status.present ∧
        p.2.detection_count = 5))) = true := by
  refine ⟨rfl, rfl, ?_, rfl, rfl, rfl, rfl, rfl⟩
  unfold matchCond
  rw [Bool.and_comm (decide (missingRing.cls = cex2Det.cls)), Bool.and_assoc]

/-- C2 amended: matching only considers items with status "present", so a
missing item is never re-associated; when no present item matches, the update
inserts a fresh item (new generated id) with detection_count = 1 and status
"present" — it does not resume the missing item's id or count. -/
theorem reappearance_behavior (inv : Inventory) (d : Detection) (now : Nat) :
    (∀ it, findMatching inv d = some it → it.status = Status.present) ∧
    (d.is_jewelry = true → findMatching inv d = none →
      (generateItemId d now, newItemOfDetection d now) ∈ updateInventory inv [d] now ∧
      (newItemOfDetection d now).detection_count = 1 ∧
      (newItemOfDetection d now).status = Status.present) := by
  refine ⟨fun it h => findMatching_present inv d it h, ?_⟩
  intro hj hnone
  refine ⟨?_, rfl, rfl⟩
  unfold updateInventory
  apply mem_updatePhase2_of_mem
  show (generateItemId d now, newItemOfDetection d now) ∈ updatePhase1 inv [d] now
  unfold updatePhase1
  simp only [List.foldl_cons, List.foldl_nil]
  rw [if_pos hj, hnone]
  show (generateItemId d now, newItemOfDetection d now)
    ∈ dinsert [] (generateItemId d now) (newItemOfDetection d now)
  rw [dinsert_nil]
  exact List.mem_singleton.2 rfl

theorem reappearance_behavior_witness :
    (generateItemId cex2Det 9, newItemOfDetection cex2Det 9)
        ∈ updateInventory cex2Inv [cex2Det] 9 ∧
    (newItemOfDetection cex2Det 9).detection_count = 1 ∧
    (newItemOfDetection cex2Det 9).status = Status.present :=
  (reappearance_behavior cex2Inv cex2Det 9).2 rfl rfl

/-- First-inserted present ring, 40 px from the C3 test detection. -/
def cexItemA : Item := testItem "a" "ring" (0, 0) Status.present 2 0

/-- Second-inserted present ring, only 10 px from the C3 test detection. -/
def cexItemB : Item := testItem "b" "ring" (30, 0) Status.present 2 1

/-- Two present rings, both within tolerance of the test detection. -/
def cexInv : Inventory := [("ka", cexItemA), ("kb", cexItemB)]

/-- A ring detection at (40,0): 40 px from item A, 10 px from item B. -/
def cexDet : Detection := ringDet (40, 0)

/-- C3 counterexample: with two qualifying present items, the matcher
returns the FIRST in insertion order (item A, 40 px away), not the nearest
(item B, 10 px away) — there is no nearest-distance or first_seen
tie-breaking. -/
theorem matching_counterexample :
    findMatching cexInv cexDet = some cexItemA ∧
    matchCond cexItemB cexDet = true ∧
    sqDist cexItemB.center cexDet.center < sqDist cexItemA.center cexDet.center ∧
    cexItemA ≠ cexItemB := by
  refine ⟨rfl, rfl, by norm_num [sqDist, cexItemA, cexItemB, cexDet, testItem, ringDet], ?_⟩
  intro h
  have hid := congrArg Item.id h
  simp [cexItemA, cexItemB, testItem] at hid

/-- C3 amended: the matcher considers exactly the present same-class items
within the Euclidean tolerance, and among them returns the first in
inventory insertion order (everything stored before it fails the matching
condition); it returns none exactly when no item qualifies. -/
theorem matching_first_qualifying (inv : Inventory) (d : Detection) :
    (∀ it, findMatching inv d = some it →
      matchCond it d = true ∧
      ∃ l1 k l2, inv = l1 ++ (k, it) :: l2 ∧
        ∀ p ∈ l1, matchCond p.2 d = false) ∧
    (findMatching inv d = none ↔ ∀ p ∈ inv, matchCond p.2 d = false) :=
  ⟨fun it h => findMatching_first inv d it h, findMatching_none_iff inv d⟩

theorem matching_first_qualifying_witness :
    matchCond cexItemA cexDet = true ∧
    (∃ l1 k l2, cexInv = l1 ++ (k, cexItemA) :: l2 ∧
      ∀ p ∈ l1, matchCond p.2 cexDet = false) :=
  (matching_first_qualifying cexInv cexDet).1 cexItemA rfl

/-- A present jewelry item with detection_count exactly 3. -/
def item3 : Item := testItem "x" "ring" (5, 5) Status.present 3 0

/-- The same item with detection_count 4. -/
def item4 : Item := testItem "x" "ring" (5, 5) Status.present 4 0

/-- C5 counterexample: with an empty baseline and one present jewelry item
of detection_count = 3, `_check_unauthorized_items` emits NO alert: its
stability test is strictly `detection_count > 3`, so count 3 does not
suffice. -/
theorem new_jewelry_counterexample :
    item3.is_jewelry = true ∧
    item3.status = Status.present ∧
    item3.detection_count = 3 ∧
    checkUnauthorizedItems [("i", item3)] [] 0 = [] :=
  ⟨rfl, rfl, rfl, rfl⟩

/-- C5 amended: the stability threshold is strict (`detection_count > 3`,
i.e. at least 4): one HIGH NEW_JEWELRY alert per present jewelry item with
detection_count > 3 that matches no baseline item; in particular one
present jewelry item with detection_count = 4 and an empty baseline yields
exactly one alert. -/
theorem new_jewelry_threshold (inv : Inventory) (baseline : List Item)
    (now : Nat) :
    checkUnauthorizedItems inv baseline now
      = (inv.filter fun p => decide (unauthorizedCond baseline p.2)).map
          (fun p => mkNewJewelryAlert p.2 now) ∧
    (∀ a ∈ checkUnauthorizedItems inv baseline now,
      a.atype = "NEW_JEWELRY" ∧ a.severity = "HIGH" ∧
        a.action_required = true) ∧
    (∀ k it, it.is_jewelry = true → it.status = Status.present →
      3 < it.detection_count →
      checkUnauthorizedItems [(k, it)] [] now = [mkNewJewelryAlert it now]) := by
  refine ⟨checkUnauthorizedItems_eq inv baseline now, ?_, ?_⟩
  · intro a ha
    rw [checkUnauthorizedItems_eq] at ha
    obtain ⟨p, _, rfl⟩ := List.mem_map.1 ha
    exact ⟨rfl, rfl, rfl⟩
  · intro k it h1 h2 h3
    rw [checkUnauthorizedItems_eq]
    have hcond : unauthorizedCond [] it := ⟨h1, h2, h3, by simp⟩
    simp [List.filter_cons, decide_eq_true hcond]

theorem new_jewelry_threshold_witness :
    checkUnauthorizedItems [("i", item4)] [] 0 = [mkNewJewelryAlert item4 0] :=
  (new_jewelry_threshold [] [] 0).2.2 "i" item4 rfl rfl (by decide)

/-- The matched item of the C8 scenario (bbox from its creation frame). -/
def cex8Item : Item := testItem "ring_100_100" "ring" (100, 100) Status.present 2 0

/-- A later detection of the same ring, 2 px away, with a different bbox. -/
def cex8Det : Detection :=
  { class_id := 80, confidence := 1 / 2, bbox := ⟨90, 90, 110, 110⟩,
    center := (102, 100) }

/-- Inventory holding the present ring under its creation-time key. -/
def cex8Inv : Inventory := [("ring_100_100_1", cex8Item)]

/-- C8 counterexample: the matched-item rewrite does NOT copy the
detection's bbox — the stored item keeps its old bbox, which differs from
the detection's. -/
theorem match_update_counterexample :
    findMatching cex8Inv cex8Det = some cex8Item ∧
    dlookup (updateInventory cex8Inv [cex8Det] 9) cex8Item.id
      = some (applyMatch cex8Item cex8Det 9) ∧
    (applyMatch cex8Item cex8Det 9).bbox = cex8Item.bbox ∧
    cex8Item.bbox ≠ cex8Det.bbox := by
  refine ⟨rfl, rfl, rfl, ?_⟩
  intro h
  have hx := congrArg BBox.x1 h
  simp [cex8Item, cex8Det, testItem] at hx

/-- C8 amended: on a match, the update stores (under the item's id field)
the item with center, confidence taken from the detection, last_seen = now,
detection_count incremented, status "present", id and first_seen unchanged —
and bbox RETAINED from the tracked item, not taken from the detection. -/
theorem match_update_fields (inv : Inventory) (d : Detection) (it : Item)
    (now : Nat) (hm : findMatching inv d = some it) (hj : d.is_jewelry = true) :
    (it.id, applyMatch it d now) ∈ updateInventory inv [d] now ∧
    (applyMatch it d now).center = d.center ∧
    (applyMatch it d now).confidence = d.confidence ∧
    (applyMatch it d now).last_seen = now ∧
    (applyMatch it d now).detection_count = it.detection_count + 1 ∧
    (applyMatch it d now).status = Status.present ∧
    (applyMatch it d now).id = it.id ∧
    (applyMatch it d now).first_seen = it.first_seen ∧
    (applyMatch it d now).bbox = it.bbox := by
  refine ⟨?_, rfl, rfl, rfl, rfl, rfl, rfl, rfl, rfl⟩
  unfold updateInventory
  apply mem_updatePhase2_of_mem
  show (it.id, applyMatch it d now) ∈ updatePhase1 inv [d] now
  unfold updatePhase1
  simp only [List.foldl_cons, List.foldl_nil]
  rw [if_pos hj, hm]
  show (it.id, applyMatch it d now) ∈ dinsert [] it.id (applyMatch it d now)
  rw [dinsert_nil]
  exact List.mem_singleton.2 rfl

theorem match_update_fields_witness :
    (cex8Item.id, applyMatch cex8Item cex8Det 9)
        ∈ updateInventory cex8Inv [cex8Det] 9 ∧
    (applyMatch cex8Item cex8Det 9).center = cex8Det.center ∧
    (applyMatch cex8Item cex8Det 9).detection_count
      = cex8Item.detection_count + 1 := by
  have h := match_update_fields cex8Inv cex8Det cex8Item 9 rfl rfl
  exact ⟨h.1, h.2.1, h.2.2.2.2.1⟩
